import Mathlib

/-!
Verification development for the wordpan client-side collection synchronizers.

The definitions below are a shallow embedding of the React hooks
`use-favorite-words.ts`, `useFlashcards` and `use-word-pairs.ts`:

* each asynchronous operation is modelled as a pure function from the
  pre-call state (and, where relevant, a model of the remote row store)
  to the post-call state;
* the settled result of each awaited remote call is an explicit
  parameter (`Except String _`, an error option, or server-assigned
  fields), so a single function application describes exactly one
  settled execution of the operation;
* every operation result also reports whether the remote call was
  actually issued (`remoteCalled`), so that local short-circuiting is
  observable.
-/

/-- The authenticated user from `UserContext` (only its `id` is consulted). -/
structure AppUser where
  id : String
  deriving DecidableEq

/-- A supabase auth session; `access_token` is the bearer credential. -/
structure Session where
  access_token : String
  deriving DecidableEq

/-- JavaScript `[...new Set(l)]`: deduplication keeping the first
occurrence of each element, preserving order.  Auxiliary worker carrying
the set of already-seen elements. -/
def jsSetDedupAux (seen : List String) : List String → List String
  | [] => []
  | x :: xs => if x ∈ seen then jsSetDedupAux seen xs else x :: jsSetDedupAux (x :: seen) xs

/-- JavaScript `[...new Set(l)]` for a list of strings. -/
def jsSetDedup (l : List String) : List String := jsSetDedupAux [] l

/-- `word.trim().toLowerCase()`, the normalisation applied by every
favorite-word operation before comparison or storage: whitespace is
stripped from both ends and every character is lower-cased. -/
def normalizeWord (w : String) : String :=
  ⟨((w.data.dropWhile Char.isWhitespace).reverse.dropWhile Char.isWhitespace).reverse.map
    Char.toLower⟩

/-- Local state of `useFavoriteWords`. -/
structure FavState where
  favorites : List String
  loading : Bool
  error : Option String
  deriving DecidableEq

/-- The remote `favorite_words` table: rows `(user_id, word)` with a
uniqueness constraint on the pair. -/
abbrev FavStore := List (String × String)

/-- Result of a favorite-word operation: the returned boolean, the
post-call local state, the post-call store, and whether the remote call
was issued. -/
structure FavResult where
  ok : Bool
  state : FavState
  store : FavStore
  remoteCalled : Bool
  deriving DecidableEq

/-- `addFavorite` from `use-favorite-words.ts`.  With no user it returns
false without a remote call.  Otherwise the insert of the normalised
word is issued; `transportErr` models a thrown store error other than
the unique-constraint violation.  When the insert settles, the
Postgres 23505 unique violation occurs exactly when the store already
holds `(user.id, normalised word)`; that branch updates the mirror with
`[...new Set([...favorites, w])]` and returns true.  A plain success
inserts the row and updates the mirror with
`[...new Set([w, ...favorites])]`. -/
def addFavorite (user : Option AppUser) (word : String) (transportErr : Option String)
    (store : FavStore) (s : FavState) : FavResult :=
  match user with
  | none => ⟨false, s, store, false⟩
  | some u =>
    match transportErr with
    | some msg => ⟨false, { s with error := some msg }, store, true⟩
    | none =>
      let w := normalizeWord word
      if (u.id, w) ∈ store then
        ⟨true, { s with favorites := jsSetDedup (s.favorites ++ [w]) }, store, true⟩
      else
        ⟨true, { s with favorites := jsSetDedup (w :: s.favorites) }, (u.id, w) :: store, true⟩

/-- `removeFavorite` from `use-favorite-words.ts`: deletes the rows
matching `(user.id, normalised word)` and filters the normalised word
out of the mirror; on a thrown store error it records the error and
leaves the mirror unchanged. -/
def removeFavorite (user : Option AppUser) (word : String) (transportErr : Option String)
    (store : FavStore) (s : FavState) : FavResult :=
  match user with
  | none => ⟨false, s, store, false⟩
  | some u =>
    match transportErr with
    | some msg => ⟨false, { s with error := some msg }, store, true⟩
    | none =>
      let w := normalizeWord word
      ⟨true, { s with favorites := s.favorites.filter (fun x => x != w) },
        store.filter (fun r => !(r.1 == u.id && r.2 == w)), true⟩

/-- `isFavorite` from `use-favorite-words.ts`:
`favorites.includes(word.trim().toLowerCase())`. -/
def isFavorite (word : String) (s : FavState) : Bool :=
  s.favorites.contains (normalizeWord word)

/-- A flashcard deck as mirrored locally (`FlashcardDeck` in
`useFlashcards`); `card_count` is always populated by the hook. -/
structure FlashcardDeck where
  id : String
  name : String
  description : Option String
  created_at : String
  updated_at : String
  card_count : Nat
  deriving DecidableEq

/-- A flashcard as mirrored locally (`FlashcardCard` in `useFlashcards`). -/
structure FlashcardCard where
  id : String
  deck_id : String
  front : String
  back : String
  order_index : Nat
  created_at : String
  updated_at : String
  deriving DecidableEq

/-- A progress record as mirrored locally (`FlashcardProgress`). -/
structure FlashcardProgress where
  id : String
  card_id : String
  correct_count : Nat
  incorrect_count : Nat
  last_reviewed_at : Option String
  deriving DecidableEq

/-- Local state of `useFlashcards`.  The `progress` object keyed by
card id is modelled as an association list; under the schema constraint
UNIQUE(user_id, card_id) the store never yields two rows for the same
key within one user and deck, so first-match lookup agrees with the
JavaScript object built by overwriting assignment. -/
structure FlashcardsState where
  decks : List FlashcardDeck
  cards : List FlashcardCard
  progress : List (String × FlashcardProgress)
  loading : Bool
  error : Option String
  deriving DecidableEq

/-- Result of a `useFlashcards` operation: returned value, post-call
state, and whether the remote call was issued. -/
structure FlashResult (α : Type) where
  result : α
  state : FlashcardsState
  remoteCalled : Bool

/-- A row of the `fetchDecks` select, including the nested
`flashcard_cards(count)` aggregate (`none` when the join is absent). -/
structure DeckRow where
  id : String
  name : String
  description : Option String
  created_at : String
  updated_at : String
  cards_count : Option Nat
  deriving DecidableEq

/-- The mapping applied to each fetched deck row:
`card_count: deck.flashcard_cards?.[0]?.count || 0`. -/
def toDeck (r : DeckRow) : FlashcardDeck :=
  { id := r.id, name := r.name, description := r.description,
    created_at := r.created_at, updated_at := r.updated_at,
    card_count := r.cards_count.getD 0 }

/-- `fetchDecks`: no-op without a user; on failure records the error and
leaves `decks` untouched; on success replaces `decks` with the mapped
rows in the returned order.  Either settled path ends with
`loading = false` and the success path with `error = none`. -/
def fetchDecks (user : Option AppUser) (outcome : Except String (List DeckRow))
    (s : FlashcardsState) : FlashResult Unit :=
  match user with
  | none => ⟨(), s, false⟩
  | some _ =>
    match outcome with
    | .error msg => ⟨(), { s with error := some msg, loading := false }, true⟩
    | .ok rows => ⟨(), { s with decks := rows.map toDeck, error := none, loading := false }, true⟩

/-- `fetchCards`: issued unconditionally (no user check in the source);
on failure records the error and leaves `cards` untouched; on success
replaces `cards` with the returned rows in order. -/
def fetchCards (user : Option AppUser) (deckId : String)
    (outcome : Except String (List FlashcardCard)) (s : FlashcardsState) :
    FlashResult Unit :=
  match outcome with
  | .error msg => ⟨(), { s with error := some msg, loading := false }, true⟩
  | .ok rows => ⟨(), { s with cards := rows, error := none, loading := false }, true⟩

/-- A row of the remote `flashcard_progress` table. -/
structure ProgressRow where
  id : String
  user_id : String
  card_id : String
  deck_id : String
  correct_count : Nat
  incorrect_count : Nat
  last_reviewed_at : Option String
  deriving DecidableEq

/-- Projection of a store row to the locally mirrored record. -/
def progressRowToLocal (r : ProgressRow) : FlashcardProgress :=
  { id := r.id, card_id := r.card_id, correct_count := r.correct_count,
    incorrect_count := r.incorrect_count, last_reviewed_at := r.last_reviewed_at }

/-- The progress map built from the store for one `(user, deck)`: the
remote query filters by `user_id` and `deck_id`, and each returned row
is keyed by its `card_id`. -/
def progressMapOf (uid deckId : String) (store : List ProgressRow) :
    List (String × FlashcardProgress) :=
  (store.filter (fun r => r.user_id == uid && r.deck_id == deckId)).map
    (fun r => (r.card_id, progressRowToLocal r))

/-- `fetchProgress`: no-op without a user.  On success it replaces the
`progress` map with the keyed query result.  A failure is only logged in
the source (`console.error`): the error state, the mirror and `loading`
are all left untouched. -/
def fetchProgress (user : Option AppUser) (deckId : String)
    (outcome : Except String (List ProgressRow)) (s : FlashcardsState) :
    FlashResult Unit :=
  match user with
  | none => ⟨(), s, false⟩
  | some _ =>
    match outcome with
    | .error _ => ⟨(), s, true⟩
    | .ok rows =>
      ⟨(), { s with progress := rows.map (fun r => (r.card_id, progressRowToLocal r)) }, true⟩

/-- The inserted deck row returned by `.insert(...).select().single()`. -/
structure InsertedDeckRow where
  id : String
  name : String
  description : Option String
  created_at : String
  updated_at : String
  deriving DecidableEq

/-- The deck the hook builds from the returned inserted row:
all fields from the response, with `card_count: 0`. -/
def deckFromRow (d : InsertedDeckRow) : FlashcardDeck :=
  { id := d.id, name := d.name, description := d.description,
    created_at := d.created_at, updated_at := d.updated_at, card_count := 0 }

/-- `createDeck`: returns null without a user (no remote call, no error
recorded).  On a settled insert it builds the new deck from the returned
row with `card_count := 0` and prepends it to `decks`; on failure it
records the error and leaves `decks` unchanged. -/
def createDeck (user : Option AppUser) (name : String) (description : Option String)
    (outcome : Except String InsertedDeckRow) (s : FlashcardsState) :
    FlashResult (Option FlashcardDeck) :=
  match user with
  | none => ⟨none, s, false⟩
  | some _ =>
    match outcome with
    | .error msg => ⟨none, { s with error := some msg }, true⟩
    | .ok d => ⟨some (deckFromRow d), { s with decks := deckFromRow d :: s.decks }, true⟩

/-- The settled result of a supabase delete: a thrown error, or the
number of rows the delete affected (the length of the `.select()` data). -/
structure DeleteOutcome where
  error : Option String
  affected : Nat
  deriving DecidableEq

/-- `deleteDeck`: without a user it records "User not authenticated" and
returns false with no remote call.  On a thrown error it records it and
returns false.  When the delete settles affecting zero rows it records
the distinct not-found-or-not-permitted error and returns false leaving
`decks` unchanged; otherwise it filters the deck out of the mirror and
returns true. -/
def deleteDeck (user : Option AppUser) (deckId : String) (outcome : DeleteOutcome)
    (s : FlashcardsState) : FlashResult Bool :=
  match user with
  | none => ⟨false, { s with error := some "User not authenticated" }, false⟩
  | some _ =>
    match outcome.error with
    | some msg => ⟨false, { s with error := some msg }, true⟩
    | none =>
      if outcome.affected = 0 then
        ⟨false,
          { s with error := some "Deck not found or you don\x27t have permission to delete it" },
          true⟩
      else
        ⟨true, { s with decks := s.decks.filter (fun d => d.id != deckId) }, true⟩

/-- Server-assigned fields of an inserted card row; per the store
contract the insert returns the inserted row, echoing the written
fields, with server-assigned id and timestamps. -/
structure InsertAssigned where
  id : String
  created_at : String
  updated_at : String
  deriving DecidableEq

/-- The card row returned by the store for an insert of
`{ deck_id, front, back, order_index }` (the written fields echoed, id
and timestamps server-assigned). -/
def cardFromInsert (deckId front back : String) (idx : Nat) (a : InsertAssigned) :
    FlashcardCard :=
  { id := a.id, deck_id := deckId, front := front, back := back,
    order_index := idx, created_at := a.created_at, updated_at := a.updated_at }

/-- `addCard`: the source performs no user check (card ownership is
enforced through the deck), so the `user` argument is never consulted
and the remote insert is always issued.  The payload carries
`order_index: cards.length`; on success the returned row is appended to
`cards`, on failure the error is recorded and `cards` is unchanged. -/
def addCard (user : Option AppUser) (deckId front back : String)
    (outcome : Except String InsertAssigned) (s : FlashcardsState) :
    FlashResult (Option FlashcardCard) :=
  match outcome with
  | .error msg => ⟨none, { s with error := some msg }, true⟩
  | .ok a =>
    ⟨some (cardFromInsert deckId front back s.cards.length a),
      { s with cards := s.cards ++ [cardFromInsert deckId front back s.cards.length a] }, true⟩

/-- `deleteCard`: the source performs no user check and no `.select()`
on the delete, so `user` and `outcome.affected` are never consulted.
Whenever the delete settles without a thrown error it filters the card
out of the mirror and returns true; on a thrown error it records it and
returns false. -/
def deleteCard (user : Option AppUser) (cardId : String) (outcome : DeleteOutcome)
    (s : FlashcardsState) : FlashResult Bool :=
  match outcome.error with
  | some msg => ⟨false, { s with error := some msg }, true⟩
  | none => ⟨true, { s with cards := s.cards.filter (fun c => c.id != cardId) }, true⟩

/-- `updateCard`: the source performs no user check.  On success the
returned row replaces every mirrored card whose id equals `cardId`
(positionally, via `map`); on failure the error is recorded and the
mirror is unchanged. -/
def updateCard (user : Option AppUser) (cardId front back : String)
    (outcome : Except String FlashcardCard) (s : FlashcardsState) :
    FlashResult (Option FlashcardCard) :=
  match outcome with
  | .error msg => ⟨none, { s with error := some msg }, true⟩
  | .ok row =>
    ⟨some row, { s with cards := s.cards.map (fun c => if c.id = cardId then row else c) }, true⟩

/-- Result of `recordProgress`: returned boolean, post-call state,
post-call store, and whether a remote call was issued. -/
structure RecordResult where
  ok : Bool
  state : FlashcardsState
  store : List ProgressRow
  remoteCalled : Bool

/-- `recordProgress(cardId, deckId, correct)`: returns false without a
user (no remote call).  If the local mirror holds a record for `cardId`
it updates the store row with that id, adding 1 to exactly one of the
two counters (computed from the mirrored record) and setting
`last_reviewed_at`; otherwise it inserts a fresh row with counts
initialised from the single observation.  `writeErr` models a thrown
write error: the source only logs it and returns false, leaving state
and store unchanged.  After a settled write it re-fetches progress for
the deck (`refetchErr` models that inner fetch failing, which
`fetchProgress` swallows, leaving the mirror stale) and returns true. -/
def recordProgress (user : Option AppUser) (cardId deckId : String) (correct : Bool)
    (now freshId : String) (writeErr : Option String) (refetchErr : Option String)
    (store : List ProgressRow) (s : FlashcardsState) : RecordResult :=
  match user with
  | none => ⟨false, s, store, false⟩
  | some u =>
    match writeErr with
    | some _ => ⟨false, s, store, true⟩
    | none =>
      let store2 : List ProgressRow :=
        match s.progress.lookup cardId with
        | some ex =>
          store.map (fun r =>
            if r.id = ex.id then
              { r with
                correct_count := ex.correct_count + (if correct then 1 else 0),
                incorrect_count := ex.incorrect_count + (if correct then 0 else 1),
                last_reviewed_at := some now }
            else r)
        | none =>
          store ++ [{ id := freshId, user_id := u.id, card_id := cardId, deck_id := deckId,
                      correct_count := if correct then 1 else 0,
                      incorrect_count := if correct then 0 else 1,
                      last_reviewed_at := some now }]
      let s2 : FlashcardsState :=
        match refetchErr with
        | some _ => s
        | none => { s with progress := progressMapOf u.id deckId store2 }
      ⟨true, s2, store2, true⟩

/-- How the body of a non-success HTTP response parses in
`makeAuthenticatedRequest`: not JSON at all, JSON without an `error`
field, or JSON whose `error` field is the given string. -/
inductive ResponseBody where
  | notJson : ResponseBody
  | jsonNoError : ResponseBody
  | jsonWithError (msg : String) : ResponseBody
  deriving DecidableEq

/-- A settled HTTP response as observed by the request helper. -/
structure HttpResponse where
  ok : Bool
  statusText : String
  body : ResponseBody
  deriving DecidableEq

/-- The message thrown for a non-success response:
`errorData.error || "Request failed: " + statusText`, where a body that
fails to parse yields `errorData = { error: "Unknown error" }` and an
empty `error` string is falsy. -/
def httpErrorMessage (resp : HttpResponse) : String :=
  match resp.body with
  | .notJson => "Unknown error"
  | .jsonNoError => "Request failed: " ++ resp.statusText
  | .jsonWithError msg => if msg = "" then "Request failed: " ++ resp.statusText else msg

/-- Result of `makeAuthenticatedRequest`: whether the HTTP request was
issued, the headers it carried, and the settled outcome (the response on
success, the thrown message on failure). -/
structure AuthRequest where
  sent : Bool
  headers : List (String × String)
  outcome : Except String HttpResponse

/-- `makeAuthenticatedRequest` from `use-word-pairs.ts`: with no session
it throws "User must be authenticated" before any HTTP call; otherwise
it issues the request with a JSON content type and an
`Authorization: Bearer <access_token>` header, returns the response when
`response.ok`, and throws `httpErrorMessage` otherwise. -/
def makeAuthenticatedRequest (session : Option Session) (resp : HttpResponse) : AuthRequest :=
  match session with
  | none => ⟨false, [], .error "User must be authenticated"⟩
  | some sess =>
    let hdrs := [("Content-Type", "application/json"),
                 ("Authorization", "Bearer " ++ sess.access_token)]
    if resp.ok then ⟨true, hdrs, .ok resp⟩
    else ⟨true, hdrs, .error (httpErrorMessage resp)⟩

/-- A word pair row (`word_pairs` table). -/
structure WordPair where
  id : String
  word1 : String
  word2 : String
  pair_type : String
  description : Option String
  user_id : String
  created_at : String
  deriving DecidableEq

/-- Pagination state of `useWordPairs`; the counters are JavaScript
numbers, modelled as integers. -/
structure Pagination where
  page : Int
  limit : Int
  total : Int
  deriving DecidableEq

/-- Local state of `useWordPairs`. -/
structure WordPairsState where
  pairs : List WordPair
  loading : Bool
  error : Option String
  pagination : Pagination
  deriving DecidableEq

/-- The paginated list response of the word-pairs API. -/
structure WordPairsResponse where
  data : List WordPair
  count : Int
  page : Int
  limit : Int
  deriving DecidableEq

/-- `fetchWordPairs`: on failure records the error message and leaves
`pairs` and `pagination` untouched; on success replaces `pairs` with the
returned page in order and `pagination` with the response numbers. -/
def fetchWordPairs (outcome : Except String WordPairsResponse) (s : WordPairsState) :
    WordPairsState :=
  match outcome with
  | .error msg => { s with error := some msg, loading := false }
  | .ok r =>
    { s with
      pairs := r.data
      loading := false
      error := none
      pagination := { page := r.page, limit := r.limit, total := r.count } }

/-- `createWordPair`: on success prepends the returned pair and adds 1
to `pagination.total`; on failure records the error, re-throws it, and
leaves `pairs` and `pagination` unchanged. -/
def createWordPair (outcome : Except String WordPair) (s : WordPairsState) :
    Except String WordPair × WordPairsState :=
  match outcome with
  | .error msg => (.error msg, { s with error := some msg, loading := false })
  | .ok p =>
    (.ok p,
     { s with
       pairs := p :: s.pairs
       loading := false
       error := none
       pagination := { s.pagination with total := s.pagination.total + 1 } })

/-- `updateWordPair`: on success the returned pair replaces every
mirrored pair whose id equals `pairId` (positionally, via `map`); on
failure the error is recorded, re-thrown, and the mirror and pagination
are unchanged. -/
def updateWordPair (pairId : String) (outcome : Except String WordPair)
    (s : WordPairsState) : Except String WordPair × WordPairsState :=
  match outcome with
  | .error msg => (.error msg, { s with error := some msg, loading := false })
  | .ok p =>
    (.ok p,
     { s with
       pairs := s.pairs.map (fun q => if q.id = pairId then p else q)
       loading := false
       error := none })

/-- `deleteWordPair`: on success filters the pair out of the mirror and
sets `pagination.total` to `Math.max(0, total - 1)`; on failure records
the error, re-throws it, and leaves the mirror and pagination
unchanged. -/
def deleteWordPair (pairId : String) (outcome : Except String Unit) (s : WordPairsState) :
    Except String Unit × WordPairsState :=
  match outcome with
  | .error msg => (.error msg, { s with error := some msg, loading := false })
  | .ok _ =>
    (.ok (),
     { s with
       pairs := s.pairs.filter (fun p => p.id != pairId)
       loading := false
       error := none
       pagination := { s.pagination with total := max 0 (s.pagination.total - 1) } })

/-- One step of repeatedly calling `addFavorite` for the same user with
a settled (non-transport-error) remote insert, threading the local state
and the store. -/
def addFavoriteStep (u : AppUser) (p : FavState × FavStore) (w : String) :
    FavState × FavStore :=
  let r := addFavorite (some u) w none p.2 p.1
  (r.state, r.store)

/-! ### Helper lemmas -/

theorem mem_jsSetDedupAux (seen l : List String) (a : String) :
    a ∈ jsSetDedupAux seen l ↔ a ∈ l ∧ a ∉ seen := by
  induction l generalizing seen with
  | nil => simp [jsSetDedupAux]
  | cons x xs ih =>
    by_cases hx : x ∈ seen
    · rw [jsSetDedupAux, if_pos hx, ih]
      simp only [List.mem_cons]
      constructor
      · exact fun h => ⟨Or.inr h.1, h.2⟩
      · rintro ⟨h1 | h1, h2⟩
        · exact absurd (h1 ▸ hx) h2
        · exact ⟨h1, h2⟩
    · rw [jsSetDedupAux, if_neg hx]
      simp only [List.mem_cons, ih]
      constructor
      · rintro (rfl | ⟨h1, h2⟩)
        · exact ⟨Or.inl rfl, hx⟩
        · exact ⟨Or.inr h1, fun hs => h2 (Or.inr hs)⟩
      · rintro ⟨rfl | h1, h2⟩
        · exact Or.inl rfl
        · by_cases hax : a = x
          · exact Or.inl hax
          · exact Or.inr ⟨h1, fun hs => by
              rcases hs with hs | hs
              · exact hax hs
              · exact h2 hs⟩

theorem nodup_jsSetDedupAux (seen l : List String) : (jsSetDedupAux seen l).Nodup := by
  induction l generalizing seen with
  | nil => simp [jsSetDedupAux]
  | cons x xs ih =>
    by_cases hx : x ∈ seen
    · rw [jsSetDedupAux, if_pos hx]
      exact ih seen
    · rw [jsSetDedupAux, if_neg hx]
      refine List.nodup_cons.mpr ⟨?_, ih (x :: seen)⟩
      intro hmem
      exact ((mem_jsSetDedupAux _ _ _).mp hmem).2 (List.mem_cons_self x seen)

theorem mem_jsSetDedup (l : List String) (a : String) : a ∈ jsSetDedup l ↔ a ∈ l := by
  rw [jsSetDedup, mem_jsSetDedupAux]
  simp

theorem nodup_jsSetDedup (l : List String) : (jsSetDedup l).Nodup :=
  nodup_jsSetDedupAux [] l

theorem count_jsSetDedup (l : List String) (a : String) (ha : a ∈ l) :
    (jsSetDedup l).count a = 1 :=
  List.count_eq_one_of_mem (nodup_jsSetDedup l) ((mem_jsSetDedup l a).mpr ha)

theorem jsSetDedupAux_append_singleton (l : List String) (seen : List String) (x : String)
    (hx : x ∈ seen ∨ x ∈ l) : jsSetDedupAux seen (l ++ [x]) = jsSetDedupAux seen l := by
  induction l generalizing seen with
  | nil =>
    rcases hx with h | h
    · simp [jsSetDedupAux, h]
    · simp at h
  | cons y ys ih =>
    by_cases hy : y ∈ seen
    · rw [List.cons_append, jsSetDedupAux, if_pos hy, jsSetDedupAux, if_pos hy]
      apply ih
      rcases hx with h | h
      · exact Or.inl h
      · rcases List.mem_cons.mp h with rfl | h2
        · exact Or.inl hy
        · exact Or.inr h2
    · rw [List.cons_append, jsSetDedupAux, if_neg hy, jsSetDedupAux, if_neg hy]
      congr 1
      apply ih
      rcases hx with h | h
      · exact Or.inl (List.mem_cons_of_mem _ h)
      · rcases List.mem_cons.mp h with rfl | h2
        · exact Or.inl (List.mem_cons_self _ _)
        · exact Or.inr h2

theorem jsSetDedupAux_eq_self (l : List String) (seen : List String)
    (h : ∀ a ∈ l, a ∉ seen) (hl : l.Nodup) : jsSetDedupAux seen l = l := by
  induction l generalizing seen with
  | nil => rfl
  | cons x xs ih =>
    have hx : x ∉ seen := h x (List.mem_cons_self _ _)
    rw [jsSetDedupAux, if_neg hx]
    congr 1
    apply ih
    · intro a ha hmem
      rcases List.mem_cons.mp hmem with rfl | h2
      · exact (List.nodup_cons.mp hl).1 ha
      · exact h a (List.mem_cons_of_mem _ ha) h2
    · exact (List.nodup_cons.mp hl).2

theorem jsSetDedup_eq_self (l : List String) (hl : l.Nodup) : jsSetDedup l = l :=
  jsSetDedupAux_eq_self l [] (by simp) hl

theorem jsSetDedup_append_mem (l : List String) (x : String) (hx : x ∈ l) :
    jsSetDedup (l ++ [x]) = jsSetDedup l :=
  jsSetDedupAux_append_singleton l [] x (Or.inr hx)

theorem lookup_append_of_notin_left {β : Type} (k : String) (l1 l2 : List (String × β))
    (h : ∀ p ∈ l1, p.1 ≠ k) : (l1 ++ l2).lookup k = l2.lookup k := by
  induction l1 with
  | nil => rfl
  | cons p ps ih =>
    obtain ⟨a, v⟩ := p
    have ha : a ≠ k := h (a, v) (List.mem_cons_self _ _)
    rw [List.cons_append, List.lookup]
    have hx : (k == a) = false := beq_eq_false_iff_ne.mpr (Ne.symm ha)
    rw [hx]
    exact ih fun q hq => h q (List.mem_cons_of_mem _ hq)

theorem map_eq_self_of_eq {α : Type} (f : α → α) (l : List α) (h : ∀ a ∈ l, f a = a) :
    l.map f = l :=
  (List.map_congr_left h).trans (List.map_id l)

/-! ### Claim C1 -/

/-- Claim C1 counterexample: a `deleteCard` whose remote delete settles
with no transport error but zero affected rows returns true and records
no error, contradicting the claim that every delete operation of a
collection synchronizer returns false and records a distinct not-found
error in that case. -/
theorem deleteCard_zero_rows_counterexample :
    (deleteCard (some ⟨"u1"⟩) "c1" { error := none, affected := 0 }
      { decks := [], cards := [], progress := [], loading := false, error := none }).result
        = true ∧
    (deleteCard (some ⟨"u1"⟩) "c1" { error := none, affected := 0 }
      { decks := [], cards := [], progress := [], loading := false, error := none }).state.error
        = none :=
  ⟨rfl, rfl⟩

/-- Claim C1 amended: only `deleteDeck` verifies the affected row count.
For `deleteDeck`, a settled delete affecting zero rows returns false,
records the distinct not-found-or-not-permitted error and leaves the
decks mirror unchanged; at least one affected row returns true and
removes the deck from the mirror; a transport error records that error
and leaves the mirror unchanged.  `deleteCard` never inspects the
affected row count: whenever the delete settles without a transport
error it returns true and filters the card out of the mirror, recording
no error. -/
theorem delete_affected_rows_contract :
    (∀ (u : AppUser) (deckId : String) (s : FlashcardsState),
      (deleteDeck (some u) deckId { error := none, affected := 0 } s).result = false ∧
      (deleteDeck (some u) deckId { error := none, affected := 0 } s).state.error =
        some "Deck not found or you don\x27t have permission to delete it" ∧
      (deleteDeck (some u) deckId { error := none, affected := 0 } s).state.decks = s.decks) ∧
    (∀ (u : AppUser) (deckId : String) (n : Nat) (s : FlashcardsState),
      (deleteDeck (some u) deckId { error := none, affected := n + 1 } s).result = true ∧
      (deleteDeck (some u) deckId { error := none, affected := n + 1 } s).state.decks =
        s.decks.filter (fun d => d.id != deckId)) ∧
    (∀ (u : AppUser) (deckId msg : String) (n : Nat) (s : FlashcardsState),
      (deleteDeck (some u) deckId { error := some msg, affected := n } s).result = false ∧
      (deleteDeck (some u) deckId { error := some msg, affected := n } s).state.error =
        some msg ∧
      (deleteDeck (some u) deckId { error := some msg, affected := n } s).state.decks =
        s.decks) ∧
    (∀ (user : Option AppUser) (cardId : String) (n : Nat) (s : FlashcardsState),
      (deleteCard user cardId { error := none, affected := n } s).result = true ∧
      (deleteCard user cardId { error := none, affected := n } s).state.error = s.error ∧
      (deleteCard user cardId { error := none, affected := n } s).state.cards =
        s.cards.filter (fun c => c.id != cardId)) :=
  ⟨fun u deckId s => ⟨rfl, rfl, rfl⟩,
   fun u deckId n s => ⟨rfl, rfl⟩,
   fun u deckId msg n s => ⟨rfl, rfl, rfl⟩,
   fun user cardId n s => ⟨rfl, rfl, rfl⟩⟩

/-! ### Claim C2 -/

/-- Claim C2 counterexample: `addCard` performs no Owner check — with no
authenticated user established it still issues the remote insert and,
when the insert succeeds, returns the created card rather than its
failure sentinel. -/
theorem addCard_no_owner_counterexample :
    (addCard none "d1" "front" "back"
      (.ok { id := "c1", created_at := "t1", updated_at := "t1" })
      { decks := [], cards := [], progress := [], loading := false,
        error := none }).remoteCalled = true ∧
    (addCard none "d1" "front" "back"
      (.ok { id := "c1", created_at := "t1", updated_at := "t1" })
      { decks := [], cards := [], progress := [], loading := false,
        error := none }).result ≠ none :=
  ⟨rfl, by simp [addCard]⟩

/-- Claim C2 amended: `createDeck`, `deleteDeck`, `recordProgress`,
`addFavorite` and `removeFavorite` short-circuit locally when no Owner
is established, returning their failure sentinel without issuing any
remote call, and the word-pair request helper throws before issuing the
HTTP request when no session exists; `addCard`, `deleteCard` and
`updateCard`, however, never consult the Owner and issue the remote call
regardless. -/
theorem owner_guard_contract :
    (∀ (name : String) (desc : Option String) outcome (s : FlashcardsState),
      (createDeck none name desc outcome s).result = none ∧
      (createDeck none name desc outcome s).remoteCalled = false ∧
      (createDeck none name desc outcome s).state = s) ∧
    (∀ (deckId : String) outcome (s : FlashcardsState),
      (deleteDeck none deckId outcome s).result = false ∧
      (deleteDeck none deckId outcome s).remoteCalled = false ∧
      (deleteDeck none deckId outcome s).state.decks = s.decks) ∧
    (∀ (cardId deckId : String) (correct : Bool) (now fid : String)
        (we re : Option String) store (s : FlashcardsState),
      (recordProgress none cardId deckId correct now fid we re store s).ok = false ∧
      (recordProgress none cardId deckId correct now fid we re store s).remoteCalled = false ∧
      (recordProgress none cardId deckId correct now fid we re store s).state = s ∧
      (recordProgress none cardId deckId correct now fid we re store s).store = store) ∧
    (∀ (word : String) (te : Option String) (store : FavStore) (s : FavState),
      (addFavorite none word te store s).ok = false ∧
      (addFavorite none word te store s).remoteCalled = false ∧
      (addFavorite none word te store s).state = s ∧
      (addFavorite none word te store s).store = store) ∧
    (∀ (word : String) (te : Option String) (store : FavStore) (s : FavState),
      (removeFavorite none word te store s).ok = false ∧
      (removeFavorite none word te store s).remoteCalled = false ∧
      (removeFavorite none word te store s).state = s) ∧
    (∀ resp, (makeAuthenticatedRequest none resp).sent = false ∧
      (makeAuthenticatedRequest none resp).outcome = .error "User must be authenticated") ∧
    (∀ (deckId front back : String) outcome (s : FlashcardsState),
      (addCard none deckId front back outcome s).remoteCalled = true) ∧
    (∀ (cardId : String) outcome (s : FlashcardsState),
      (deleteCard none cardId outcome s).remoteCalled = true) ∧
    (∀ (cardId front back : String) outcome (s : FlashcardsState),
      (updateCard none cardId front back outcome s).remoteCalled = true) :=
  ⟨fun _ _ _ _ => ⟨rfl, rfl, rfl⟩,
   fun _ _ _ => ⟨rfl, rfl, rfl⟩,
   fun _ _ _ _ _ _ _ _ _ => ⟨rfl, rfl, rfl, rfl⟩,
   fun _ _ _ _ => ⟨rfl, rfl, rfl, rfl⟩,
   fun _ _ _ _ => ⟨rfl, rfl, rfl⟩,
   fun _ => ⟨rfl, rfl⟩,
   fun _ _ _ outcome _ => by cases outcome <;> rfl,
   fun _ outcome _ => by
    obtain ⟨e, a⟩ := outcome
    cases e <;> rfl,
   fun _ _ _ outcome _ => by cases outcome <;> rfl⟩

/-! ### Claim C6 -/

/-- Claim C6: for `updateCard` and `updateWordPair`, a successful update
replaces exactly the mirrored items whose id matches, in place: the list
keeps its length, and position `i` holds the returned row where the old
item at `i` had the matching id and the old item otherwise.  On failure
the list is entirely unchanged and the error is surfaced (recorded in
the error state; for word pairs also re-thrown). -/
theorem update_replaces_in_place :
    (∀ (user : Option AppUser) (cardId front back : String) (row : FlashcardCard)
        (s : FlashcardsState),
      (updateCard user cardId front back (.ok row) s).result = some row ∧
      (updateCard user cardId front back (.ok row) s).state.cards.length = s.cards.length ∧
      (∀ i : Nat, (updateCard user cardId front back (.ok row) s).state.cards[i]? =
        (s.cards[i]?).map fun c => if c.id = cardId then row else c) ∧
      (updateCard user cardId front back (.ok row) s).state.decks = s.decks) ∧
    (∀ (user : Option AppUser) (cardId front back msg : String) (s : FlashcardsState),
      (updateCard user cardId front back (.error msg) s).result = none ∧
      (updateCard user cardId front back (.error msg) s).state.cards = s.cards ∧
      (updateCard user cardId front back (.error msg) s).state.error = some msg) ∧
    (∀ (pairId : String) (p : WordPair) (s : WordPairsState),
      (updateWordPair pairId (.ok p) s).1 = .ok p ∧
      (updateWordPair pairId (.ok p) s).2.pairs.length = s.pairs.length ∧
      (∀ i : Nat, (updateWordPair pairId (.ok p) s).2.pairs[i]? =
        (s.pairs[i]?).map fun q => if q.id = pairId then p else q) ∧
      (updateWordPair pairId (.ok p) s).2.pagination = s.pagination) ∧
    (∀ (pairId msg : String) (s : WordPairsState),
      (updateWordPair pairId (.error msg) s).1 = .error msg ∧
      (updateWordPair pairId (.error msg) s).2.pairs = s.pairs ∧
      (updateWordPair pairId (.error msg) s).2.error = some msg) :=
  ⟨fun user cardId front back row s =>
    ⟨rfl, by simp [updateCard],
     fun i => by simp [updateCard, List.getElem?_map], rfl⟩,
   fun user cardId front back msg s => ⟨rfl, rfl, rfl⟩,
   fun pairId p s =>
    ⟨rfl, by simp [updateWordPair],
     fun i => by simp [updateWordPair, List.getElem?_map], rfl⟩,
   fun pairId msg s => ⟨rfl, rfl, rfl⟩⟩

/-! ### Claim C8 -/

/-- Claim C8 counterexample: a failing `fetchProgress` does not record
its error into the synchronizer error state (the source only logs it),
and does not touch `loading` either — contradicting the claim that every
fetch operation records its failure and ends with loading false. -/
theorem fetchProgress_swallows_error_counterexample :
    (fetchProgress (some ⟨"u1"⟩) "d1" (.error "network down")
      { decks := [], cards := [], progress := [], loading := false,
        error := none }).state.error = none ∧
    (fetchProgress (some ⟨"u1"⟩) "d1" (.error "network down")
      { decks := [], cards := [], progress := [], loading := true,
        error := none }).state.loading = true :=
  ⟨rfl, rfl⟩

/-- Claim C8 amended: `fetchDecks` and `fetchCards` behave as claimed —
on failure the error is recorded, the previous mirror is untouched and
loading ends false; on success the mirror is wholly replaced by the
result preserving the returned order.  `fetchProgress` replaces the
progress map on success but swallows failures entirely: its whole state
(mirror, error and loading) is left unchanged. -/
theorem fetch_contract :
    (∀ (u : AppUser) rows (s : FlashcardsState),
      (fetchDecks (some u) (.ok rows) s).state.decks = rows.map toDeck ∧
      (fetchDecks (some u) (.ok rows) s).state.loading = false ∧
      (fetchDecks (some u) (.ok rows) s).state.error = none) ∧
    (∀ (u : AppUser) (msg : String) (s : FlashcardsState),
      (fetchDecks (some u) (.error msg) s).state.decks = s.decks ∧
      (fetchDecks (some u) (.error msg) s).state.error = some msg ∧
      (fetchDecks (some u) (.error msg) s).state.loading = false) ∧
    (∀ (user : Option AppUser) (deckId : String) rows (s : FlashcardsState),
      (fetchCards user deckId (.ok rows) s).state.cards = rows ∧
      (fetchCards user deckId (.ok rows) s).state.loading = false ∧
      (fetchCards user deckId (.ok rows) s).state.error = none) ∧
    (∀ (user : Option AppUser) (deckId msg : String) (s : FlashcardsState),
      (fetchCards user deckId (.error msg) s).state.cards = s.cards ∧
      (fetchCards user deckId (.error msg) s).state.error = some msg ∧
      (fetchCards user deckId (.error msg) s).state.loading = false) ∧
    (∀ (u : AppUser) (deckId : String) rows (s : FlashcardsState),
      (fetchProgress (some u) deckId (.ok rows) s).state.progress =
        rows.map fun p => (p.card_id, progressRowToLocal p)) ∧
    (∀ (u : AppUser) (deckId msg : String) (s : FlashcardsState),
      (fetchProgress (some u) deckId (.error msg) s).state = s) :=
  ⟨fun u rows s => ⟨rfl, rfl, rfl⟩,
   fun u msg s => ⟨rfl, rfl, rfl⟩,
   fun user deckId rows s => ⟨rfl, rfl, rfl⟩,
   fun user deckId msg s => ⟨rfl, rfl, rfl⟩,
   fun u deckId rows s => rfl,
   fun u deckId msg s => rfl⟩

/-! ### Claim C9 -/

/-- Claim C9 counterexample: when a non-success response carries a JSON
body with no server-provided error message, the thrown message is
"Request failed: Bad Request", which is not the HTTP status text
"Bad Request" — so the fallback message is not the status text itself. -/
theorem auth_request_fallback_counterexample :
    (makeAuthenticatedRequest (some ⟨"tok"⟩)
      { ok := false, statusText := "Bad Request", body := .jsonNoError }).outcome =
      .error "Request failed: Bad Request" ∧
    "Request failed: Bad Request" ≠ "Bad Request" :=
  ⟨rfl, by decide⟩

/-- Claim C9 amended: every request issued through the authenticated
request helper carries an `Authorization: Bearer <token>` header with
the current session token and fails locally when no session is
established; every non-success HTTP status throws an error whose message
is the server-provided error message, falling back to
"Request failed: <status text>" when the parsed JSON body provides no
(or an empty) message and to "Unknown error" when the body is not
JSON. -/
theorem auth_request_contract :
    (∀ resp, (makeAuthenticatedRequest none resp).sent = false ∧
      (makeAuthenticatedRequest none resp).outcome = .error "User must be authenticated") ∧
    (∀ (sess : Session) resp,
      (makeAuthenticatedRequest (some sess) resp).sent = true ∧
      ("Authorization", "Bearer " ++ sess.access_token) ∈
        (makeAuthenticatedRequest (some sess) resp).headers) ∧
    (∀ (sess : Session) resp, resp.ok = false →
      (makeAuthenticatedRequest (some sess) resp).outcome =
        .error (httpErrorMessage resp)) ∧
    (∀ (st msg : String), msg ≠ "" →
      httpErrorMessage { ok := false, statusText := st, body := .jsonWithError msg } = msg) ∧
    (∀ st : String,
      httpErrorMessage { ok := false, statusText := st, body := .jsonNoError } =
        "Request failed: " ++ st) ∧
    (∀ st : String,
      httpErrorMessage { ok := false, statusText := st, body := .notJson } =
        "Unknown error") :=
  ⟨fun resp => ⟨rfl, rfl⟩,
   fun sess resp => by
    constructor
    · cases h : resp.ok <;> simp [makeAuthenticatedRequest, h]
    · cases h : resp.ok <;> simp [makeAuthenticatedRequest, h],
   fun sess resp h => by simp [makeAuthenticatedRequest, h],
   fun st msg h => by simp [httpErrorMessage, h],
   fun st => rfl,
   fun st => rfl⟩

/-- Claim C9 witness: the amended contract evaluated at concrete inputs,
discharging its hypotheses. -/
theorem auth_request_contract_witness :
    ({ ok := false, statusText := "Gone", body := .notJson : HttpResponse }.ok = false ∧
      (makeAuthenticatedRequest (some ⟨"tok"⟩)
        { ok := false, statusText := "Gone", body := .notJson }).outcome =
        .error (httpErrorMessage { ok := false, statusText := "Gone", body := .notJson })) ∧
    ("boom" ≠ "" ∧
      httpErrorMessage { ok := false, statusText := "Gone", body := .jsonWithError "boom" } =
        "boom") :=
  ⟨⟨rfl, auth_request_contract.2.2.1 ⟨"tok"⟩
      { ok := false, statusText := "Gone", body := .notJson } rfl⟩,
   ⟨by decide, auth_request_contract.2.2.2.1 "Gone" "boom" (by decide)⟩⟩

/-! ### Claim C5 -/

/-- Claim C5: for every successful create, the returned item appears
exactly once in the post-call mirror at the collection insertion
position — `createDeck` prepends the new deck to the decks list, and
`addCard` appends the new card with `order_index` equal to the length of
the cards mirror at the time of the call — provided the server-assigned
id is fresh for the mirror. -/
theorem create_insert_position :
    (∀ (u : AppUser) (name : String) (desc : Option String) (d : InsertedDeckRow)
        (s : FlashcardsState), (∀ d0 ∈ s.decks, d0.id ≠ d.id) →
      (createDeck (some u) name desc (.ok d) s).result = some (deckFromRow d) ∧
      (createDeck (some u) name desc (.ok d) s).state.decks = deckFromRow d :: s.decks ∧
      (createDeck (some u) name desc (.ok d) s).state.decks.count (deckFromRow d) = 1) ∧
    (∀ (user : Option AppUser) (deckId front back : String) (a : InsertAssigned)
        (s : FlashcardsState), (∀ c ∈ s.cards, c.id ≠ a.id) →
      (addCard user deckId front back (.ok a) s).result =
        some (cardFromInsert deckId front back s.cards.length a) ∧
      (addCard user deckId front back (.ok a) s).state.cards =
        s.cards ++ [cardFromInsert deckId front back s.cards.length a] ∧
      (cardFromInsert deckId front back s.cards.length a).order_index = s.cards.length ∧
      (addCard user deckId front back (.ok a) s).state.cards.count
        (cardFromInsert deckId front back s.cards.length a) = 1) :=
  ⟨fun u name desc d s hfresh => by
    refine ⟨rfl, rfl, ?_⟩
    have hnotin : deckFromRow d ∉ s.decks := fun hmem => hfresh _ hmem rfl
    show (deckFromRow d :: s.decks).count (deckFromRow d) = 1
    rw [List.count_cons_self, List.count_eq_zero.mpr hnotin],
   fun user deckId front back a s hfresh => by
    refine ⟨rfl, rfl, rfl, ?_⟩
    have hnotin : cardFromInsert deckId front back s.cards.length a ∉ s.cards :=
      fun hmem => hfresh _ hmem rfl
    show (s.cards ++ [cardFromInsert deckId front back s.cards.length a]).count
      (cardFromInsert deckId front back s.cards.length a) = 1
    rw [List.count_append, List.count_eq_zero.mpr hnotin]
    simp⟩

/-- Claim C5 witness: the contract evaluated on empty mirrors,
discharging the id-freshness hypotheses. -/
theorem create_insert_position_witness :
    ((∀ d0 ∈ ([] : List FlashcardDeck), d0.id ≠ "d9") ∧
      (createDeck (some ⟨"u1"⟩) "Spanish 101" (some "A")
        (.ok ⟨"d9", "Spanish 101", some "A", "t1", "t1"⟩)
        { decks := [], cards := [], progress := [], loading := false,
          error := none }).state.decks.count
        (deckFromRow ⟨"d9", "Spanish 101", some "A", "t1", "t1"⟩) = 1) ∧
    ((∀ c ∈ ([] : List FlashcardCard), c.id ≠ "c9") ∧
      (cardFromInsert "d9" "hola" "hello" ([] : List FlashcardCard).length
        ⟨"c9", "t2", "t2"⟩).order_index = 0) :=
  ⟨⟨by simp,
    (create_insert_position.1 ⟨"u1"⟩ "Spanish 101" (some "A")
      ⟨"d9", "Spanish 101", some "A", "t1", "t1"⟩
      { decks := [], cards := [], progress := [], loading := false, error := none }
      (by simp)).2.2⟩,
   ⟨by simp,
    (create_insert_position.2 (some ⟨"u1"⟩) "d9" "hola" "hello" ⟨"c9", "t2", "t2"⟩
      { decks := [], cards := [], progress := [], loading := false, error := none }
      (by simp)).2.2.1⟩⟩

/-! ### Claim C4 -/

/-- Claim C4: when `addFavorite`'s remote insert is rejected by the
(owner, normalised word) uniqueness constraint, the operation is a
success path — it returns true, leaves the error state untouched, and
the mirror afterwards contains the normalised word exactly once
(deduplicated via set semantics); any other insert failure is surfaced
as an error with `addFavorite` returning false and the mirror and store
unchanged. -/
theorem addFavorite_conflict_contract
    (u : AppUser) (word : String) (store : FavStore) (s : FavState) :
    ((u.id, normalizeWord word) ∈ store →
      (addFavorite (some u) word none store s).ok = true ∧
      (addFavorite (some u) word none store s).state.error = s.error ∧
      (addFavorite (some u) word none store s).store = store ∧
      (addFavorite (some u) word none store s).state.favorites.count
        (normalizeWord word) = 1) ∧
    (∀ msg : String,
      (addFavorite (some u) word (some msg) store s).ok = false ∧
      (addFavorite (some u) word (some msg) store s).state.error = some msg ∧
      (addFavorite (some u) word (some msg) store s).state.favorites = s.favorites ∧
      (addFavorite (some u) word (some msg) store s).store = store) := by
  constructor
  · intro hmem
    have hcount := count_jsSetDedup (s.favorites ++ [normalizeWord word])
      (normalizeWord word) (by simp)
    refine ⟨?_, ?_, ?_, ?_⟩ <;> simp [addFavorite, hmem, hcount]
  · intro msg
    exact ⟨rfl, rfl, rfl, rfl⟩

/-- Claim C4 witness: the conflict branch evaluated at a concrete store
already holding the normalised word, discharging the membership
hypothesis. -/
theorem addFavorite_conflict_contract_witness :
    ("u1", normalizeWord " Apple ") ∈ [("u1", "apple")] ∧
    (addFavorite (some ⟨"u1"⟩) " Apple " none [("u1", "apple")]
      ⟨["apple"], false, none⟩).ok = true ∧
    (addFavorite (some ⟨"u1"⟩) " Apple " none [("u1", "apple")]
      ⟨["apple"], false, none⟩).state.favorites.count (normalizeWord " Apple ") = 1 :=
  ⟨by decide,
   ((addFavorite_conflict_contract ⟨"u1"⟩ " Apple " [("u1", "apple")]
      ⟨["apple"], false, none⟩).1 (by decide)).1,
   ((addFavorite_conflict_contract ⟨"u1"⟩ " Apple " [("u1", "apple")]
      ⟨["apple"], false, none⟩).1 (by decide)).2.2.2⟩

/-! ### Claim C10 -/

/-- Claim C10: the word-pair synchronizer keeps `pagination.total`
non-negative after every operation — `createWordPair` adds 1 on success,
`deleteWordPair` subtracts 1 clamped at 0 (deleting at total 0 leaves
0), a successful fetch installs the (non-negative) server count, and
every failing operation leaves the pagination record unchanged. -/
theorem wordpairs_total_invariant :
    (∀ (p : WordPair) (s : WordPairsState), 0 ≤ s.pagination.total →
      (createWordPair (.ok p) s).2.pagination.total = s.pagination.total + 1 ∧
      0 ≤ (createWordPair (.ok p) s).2.pagination.total) ∧
    (∀ (pid : String) (s : WordPairsState),
      (deleteWordPair pid (.ok ()) s).2.pagination.total =
        max 0 (s.pagination.total - 1) ∧
      0 ≤ (deleteWordPair pid (.ok ()) s).2.pagination.total) ∧
    (∀ (pid : String) (s : WordPairsState), s.pagination.total = 0 →
      (deleteWordPair pid (.ok ()) s).2.pagination.total = 0) ∧
    (∀ (msg : String) (s : WordPairsState),
      (createWordPair (.error msg) s).2.pagination = s.pagination) ∧
    (∀ (pid msg : String) (s : WordPairsState),
      (deleteWordPair pid (.error msg) s).2.pagination = s.pagination) ∧
    (∀ (pid msg : String) (s : WordPairsState),
      (updateWordPair pid (.error msg) s).2.pagination = s.pagination) ∧
    (∀ (pid : String) (p : WordPair) (s : WordPairsState),
      (updateWordPair pid (.ok p) s).2.pagination = s.pagination) ∧
    (∀ (msg : String) (s : WordPairsState),
      (fetchWordPairs (.error msg) s).pagination = s.pagination) ∧
    (∀ (r : WordPairsResponse) (s : WordPairsState), 0 ≤ r.count →
      0 ≤ (fetchWordPairs (.ok r) s).pagination.total) :=
  ⟨fun p s h => ⟨rfl, by
    show (0 : Int) ≤ s.pagination.total + 1
    omega⟩,
   fun pid s => ⟨rfl, le_max_left 0 _⟩,
   fun pid s h => by
    show max 0 (s.pagination.total - 1) = 0
    rw [h]
    decide,
   fun msg s => rfl,
   fun pid msg s => rfl,
   fun pid msg s => rfl,
   fun pid p s => rfl,
   fun msg s => rfl,
   fun r s h => h⟩

/-- Claim C10 witness: the invariant evaluated on a concrete state with
total 0, discharging the non-negativity hypotheses. -/
theorem wordpairs_total_invariant_witness :
    (0 : Int) ≤ 0 ∧
    (createWordPair (.ok ⟨"p1", "big", "large", "synonym", none, "u1", "t1"⟩)
      { pairs := [], loading := false, error := none,
        pagination := { page := 1, limit := 20, total := 0 } }).2.pagination.total = 0 + 1 ∧
    (deleteWordPair "p1" (.ok ())
      { pairs := [], loading := false, error := none,
        pagination := { page := 1, limit := 20, total := 0 } }).2.pagination.total = 0 :=
  ⟨by decide,
   (wordpairs_total_invariant.1 ⟨"p1", "big", "large", "synonym", none, "u1", "t1"⟩
      { pairs := [], loading := false, error := none,
        pagination := { page := 1, limit := 20, total := 0 } } (by decide)).1,
   wordpairs_total_invariant.2.2.1 "p1"
      { pairs := [], loading := false, error := none,
        pagination := { page := 1, limit := 20, total := 0 } } rfl⟩

/-! ### Claim C3 -/

theorem addFavorite_conflict_fixed (u : AppUser) (w : String) (store : FavStore)
    (f : FavState) (hst : (u.id, normalizeWord w) ∈ store)
    (hmem : normalizeWord w ∈ f.favorites) (hnd : f.favorites.Nodup) :
    addFavorite (some u) w none store f = ⟨true, f, store, true⟩ := by
  have hfix : jsSetDedup (f.favorites ++ [normalizeWord w]) = f.favorites :=
    (jsSetDedup_append_mem f.favorites (normalizeWord w) hmem).trans
      (jsSetDedup_eq_self f.favorites hnd)
  simp [addFavorite, hst, hfix]

theorem foldl_addFavorite_fixed (u : AppUser) (ws : List String) (a : String)
    (f : FavState) (store : FavStore) (hall : ∀ w ∈ ws, normalizeWord w = a)
    (hst : (u.id, a) ∈ store) (hmem : a ∈ f.favorites) (hnd : f.favorites.Nodup) :
    ws.foldl (addFavoriteStep u) (f, store) = (f, store) := by
  induction ws with
  | nil => rfl
  | cons w tl ih =>
    have hw : normalizeWord w = a := hall w (List.mem_cons_self _ _)
    have hstep : addFavoriteStep u (f, store) w = (f, store) := by
      show ((addFavorite (some u) w none store f).state,
            (addFavorite (some u) w none store f).store) = (f, store)
      rw [addFavorite_conflict_fixed u w store f (hw.symm ▸ hst) (hw.symm ▸ hmem) hnd]
    rw [List.foldl_cons, hstep]
    exact ih fun w2 hw2 => hall w2 (List.mem_cons_of_mem _ hw2)

/-- Claim C3: the favorite-word operations compare and store words after
trimming and lower-casing.  For one owner, folding `addFavorite` over
any non-empty sequence of spellings of a single normalised word (such as
"Apple", "apple" and " apple " in any order), starting from a mirror and
store not yet holding it, yields a mirror holding the normalised word
exactly once; a further `addFavorite` of any spelling leaves the mirror
unchanged (idempotence), `isFavorite` recognises every spelling, and
`removeFavorite` of any spelling removes the entry. -/
theorem favorite_normalization (u : AppUser) (s : FavState) (store : FavStore)
    (a : String) (ws : List String) (hws : ws ≠ [])
    (hall : ∀ w ∈ ws, normalizeWord w = a)
    (hst : (u.id, a) ∉ store) :
    (ws.foldl (addFavoriteStep u) (s, store)).1.favorites =
      jsSetDedup (a :: s.favorites) ∧
    (ws.foldl (addFavoriteStep u) (s, store)).1.favorites.count a = 1 ∧
    (∀ w, normalizeWord w = a →
      (addFavorite (some u) w none (ws.foldl (addFavoriteStep u) (s, store)).2
        (ws.foldl (addFavoriteStep u) (s, store)).1).state.favorites =
        (ws.foldl (addFavoriteStep u) (s, store)).1.favorites) ∧
    (∀ w, normalizeWord w = a →
      isFavorite w (ws.foldl (addFavoriteStep u) (s, store)).1 = true) ∧
    (∀ w, normalizeWord w = a →
      a ∉ (removeFavorite (some u) w none (ws.foldl (addFavoriteStep u) (s, store)).2
        (ws.foldl (addFavoriteStep u) (s, store)).1).state.favorites) := by
  obtain ⟨w0, tl, rfl⟩ : ∃ w0 tl, ws = w0 :: tl := by
    cases ws with
    | nil => exact absurd rfl hws
    | cons w0 tl => exact ⟨w0, tl, rfl⟩
  have hw0 : normalizeWord w0 = a := hall w0 (List.mem_cons_self _ _)
  have hstep0 : addFavoriteStep u (s, store) w0 =
      ({ s with favorites := jsSetDedup (a :: s.favorites) }, (u.id, a) :: store) := by
    show ((addFavorite (some u) w0 none store s).state,
          (addFavorite (some u) w0 none store s).store) = _
    simp [addFavorite, hw0, hst]
  have hmem1 : a ∈ jsSetDedup (a :: s.favorites) :=
    (mem_jsSetDedup _ a).mpr (List.mem_cons_self _ _)
  have hnd1 : (jsSetDedup (a :: s.favorites)).Nodup := nodup_jsSetDedup _
  have hfold : (w0 :: tl).foldl (addFavoriteStep u) (s, store) =
      ({ s with favorites := jsSetDedup (a :: s.favorites) }, (u.id, a) :: store) := by
    rw [List.foldl_cons, hstep0]
    exact foldl_addFavorite_fixed u tl a _ _
      (fun w hw => hall w (List.mem_cons_of_mem _ hw))
      (List.mem_cons_self _ _) hmem1 hnd1
  rw [hfold]
  refine ⟨rfl, count_jsSetDedup _ a (List.mem_cons_self _ _), ?_, ?_, ?_⟩
  · intro w hw
    rw [addFavorite_conflict_fixed u w ((u.id, a) :: store)
      { s with favorites := jsSetDedup (a :: s.favorites) }
      (hw.symm ▸ List.mem_cons_self _ _) (hw.symm ▸ hmem1) hnd1]
  · intro w hw
    show (jsSetDedup (a :: s.favorites)).contains (normalizeWord w) = true
    rw [hw]
    simpa using hmem1
  · intro w hw
    show a ∉ (jsSetDedup (a :: s.favorites)).filter (fun x => x != normalizeWord w)
    rw [hw]
    intro hm
    simp [List.mem_filter] at hm

/-- Claim C3 witness: the three spellings "Apple", "apple" and " apple "
added in order for one owner, starting from an empty mirror and store,
leave exactly the single mirrored entry "apple", which `isFavorite`
recognises under yet another spelling. -/
theorem favorite_normalization_witness :
    (["Apple", "apple", " apple "] ≠ ([] : List String)) ∧
    (∀ w ∈ ["Apple", "apple", " apple "], normalizeWord w = "apple") ∧
    (["Apple", "apple", " apple "].foldl (addFavoriteStep ⟨"u1"⟩)
      (⟨[], false, none⟩, [])).1.favorites = ["apple"] ∧
    isFavorite " APPLE "
      (["Apple", "apple", " apple "].foldl (addFavoriteStep ⟨"u1"⟩)
        (⟨[], false, none⟩, [])).1 = true := by
  refine ⟨by decide, by decide, ?_, ?_⟩
  · have h := (favorite_normalization ⟨"u1"⟩ ⟨[], false, none⟩ [] "apple"
      ["Apple", "apple", " apple "] (by decide) (by decide) (by simp)).1
    rw [h]
    decide
  · exact (favorite_normalization ⟨"u1"⟩ ⟨[], false, none⟩ [] "apple"
      ["Apple", "apple", " apple "] (by decide) (by decide)
      (by simp)).2.2.2.1 " APPLE " (by decide)

/-! ### Claim C7 -/

theorem recordProgress_insert_eq (u : AppUser) (cardId deckId : String) (correct : Bool)
    (now fid : String) (store : List ProgressRow) (s : FlashcardsState)
    (hmiss : s.progress.lookup cardId = none) :
    recordProgress (some u) cardId deckId correct now fid none none store s =
      ⟨true,
       { s with progress := progressMapOf u.id deckId (store ++
           [⟨fid, u.id, cardId, deckId, if correct then 1 else 0,
             if correct then 0 else 1, some now⟩]) },
       store ++ [⟨fid, u.id, cardId, deckId, if correct then 1 else 0,
         if correct then 0 else 1, some now⟩], true⟩ := by
  simp [recordProgress, hmiss]

theorem recordProgress_update_eq (u : AppUser) (cardId deckId : String)
    (now fid : String) (store : List ProgressRow) (s : FlashcardsState)
    (ex : FlashcardProgress) (hex : s.progress.lookup cardId = some ex) :
    recordProgress (some u) cardId deckId true now fid none none store s =
      ⟨true,
       { s with progress := progressMapOf u.id deckId (store.map (fun r =>
           if r.id = ex.id then
             { r with
               correct_count := ex.correct_count + 1
               incorrect_count := ex.incorrect_count
               last_reviewed_at := some now }
           else r)) },
       store.map (fun r =>
         if r.id = ex.id then
           { r with
             correct_count := ex.correct_count + 1
             incorrect_count := ex.incorrect_count
             last_reviewed_at := some now }
         else r), true⟩ := by
  simp [recordProgress, hex]

theorem progressMapOf_append_lookup (u : AppUser) (cardId deckId : String)
    (store : List ProgressRow)
    (hstore : ∀ r ∈ store, ¬(r.user_id = u.id ∧ r.deck_id = deckId ∧ r.card_id = cardId))
    (rid : String) (cc ic : Nat) (lr : Option String) :
    (progressMapOf u.id deckId
      (store ++ [⟨rid, u.id, cardId, deckId, cc, ic, lr⟩])).lookup cardId =
      some ⟨rid, cardId, cc, ic, lr⟩ := by
  have hkeys : ∀ q ∈ (store.filter
      (fun r => r.user_id == u.id && r.deck_id == deckId)).map
      (fun r => (r.card_id, progressRowToLocal r)), q.1 ≠ cardId := by
    intro q hq
    obtain ⟨r, hr, rfl⟩ := List.mem_map.mp hq
    obtain ⟨hrs, hpr⟩ := List.mem_filter.mp hr
    simp only [Bool.and_eq_true, beq_iff_eq] at hpr
    exact fun hc => hstore r hrs ⟨hpr.1, hpr.2, hc⟩
  have hsing : List.filter (fun r => r.user_id == u.id && r.deck_id == deckId)
      [(⟨rid, u.id, cardId, deckId, cc, ic, lr⟩ : ProgressRow)] =
      [⟨rid, u.id, cardId, deckId, cc, ic, lr⟩] := by simp
  unfold progressMapOf
  rw [List.filter_append, hsing, List.map_append,
    lookup_append_of_notin_left cardId _ _ hkeys]
  simp [List.lookup, progressRowToLocal]

/-- Claim C7: when the local mirror holds no Progress record for the
card, `recordProgress` inserts a fresh store row with counts initialised
from the single observation; when the mirror holds a record — any
record, for either answer — it updates exactly the store row with that
record's id, adding 1 to `correct_count` and leaving `incorrect_count`
unchanged when `correct = true`, adding 1 to `incorrect_count` and
leaving `correct_count` unchanged when `correct = false`, and setting
`last_reviewed_at`; after either path it re-fetches the deck progress,
so the mirror equals the keyed refetch of the store.  In particular two
successive successful calls with `correct = true` starting from no
record yield `correct_count = 2`, `incorrect_count = 0` and the latest
review time. -/
theorem recordProgress_upsert (u : AppUser) (cardId deckId : String)
    (s : FlashcardsState) (store : List ProgressRow) (now1 now2 fid fid2 : String)
    (hmiss : s.progress.lookup cardId = none)
    (hstore : ∀ r ∈ store, ¬(r.user_id = u.id ∧ r.deck_id = deckId ∧ r.card_id = cardId))
    (hfresh : ∀ r ∈ store, r.id ≠ fid) :
    (∀ (correct : Bool) (now fid3 : String),
      (recordProgress (some u) cardId deckId correct now fid3 none none store s).store =
        store ++ [⟨fid3, u.id, cardId, deckId, if correct then 1 else 0,
          if correct then 0 else 1, some now⟩] ∧
      (recordProgress (some u) cardId deckId correct now fid3 none none store
        s).state.progress = progressMapOf u.id deckId
          (recordProgress (some u) cardId deckId correct now fid3 none none store s).store) ∧
    (∀ (f : FlashcardsState) (st : List ProgressRow) (ex : FlashcardProgress)
        (now fid3 : String), f.progress.lookup cardId = some ex →
      (recordProgress (some u) cardId deckId true now fid3 none none st f).ok = true ∧
      (recordProgress (some u) cardId deckId true now fid3 none none st f).store =
        st.map (fun r =>
          if r.id = ex.id then
            { r with
              correct_count := ex.correct_count + 1
              incorrect_count := ex.incorrect_count
              last_reviewed_at := some now }
          else r) ∧
      (recordProgress (some u) cardId deckId true now fid3 none none st
        f).state.progress = progressMapOf u.id deckId
          (recordProgress (some u) cardId deckId true now fid3 none none st f).store) ∧
    (∀ (f : FlashcardsState) (st : List ProgressRow) (ex : FlashcardProgress)
        (now fid3 : String), f.progress.lookup cardId = some ex →
      (recordProgress (some u) cardId deckId false now fid3 none none st f).ok = true ∧
      (recordProgress (some u) cardId deckId false now fid3 none none st f).store =
        st.map (fun r =>
          if r.id = ex.id then
            { r with
              correct_count := ex.correct_count
              incorrect_count := ex.incorrect_count + 1
              last_reviewed_at := some now }
          else r) ∧
      (recordProgress (some u) cardId deckId false now fid3 none none st
        f).state.progress = progressMapOf u.id deckId
          (recordProgress (some u) cardId deckId false now fid3 none none st f).store) ∧
    (recordProgress (some u) cardId deckId true now1 fid none none store s).ok = true ∧
    (recordProgress (some u) cardId deckId true now1 fid none none store
      s).state.progress.lookup cardId = some ⟨fid, cardId, 1, 0, some now1⟩ ∧
    (recordProgress (some u) cardId deckId true now2 fid2 none none
      (recordProgress (some u) cardId deckId true now1 fid none none store s).store
      (recordProgress (some u) cardId deckId true now1 fid none none store s).state).ok =
      true ∧
    (recordProgress (some u) cardId deckId true now2 fid2 none none
      (recordProgress (some u) cardId deckId true now1 fid none none store s).store
      (recordProgress (some u) cardId deckId true now1 fid none none store
        s).state).state.progress.lookup cardId = some ⟨fid, cardId, 2, 0, some now2⟩ := by
  have h1 := recordProgress_insert_eq u cardId deckId true now1 fid store s hmiss
  have hlk1 : (recordProgress (some u) cardId deckId true now1 fid none none store
      s).state.progress.lookup cardId = some ⟨fid, cardId, 1, 0, some now1⟩ := by
    rw [h1]
    exact progressMapOf_append_lookup u cardId deckId store hstore fid 1 0 (some now1)
  have h2 := recordProgress_update_eq u cardId deckId now2 fid2
    (recordProgress (some u) cardId deckId true now1 fid none none store s).store
    (recordProgress (some u) cardId deckId true now1 fid none none store s).state
    ⟨fid, cardId, 1, 0, some now1⟩ hlk1
  have hmap : (recordProgress (some u) cardId deckId true now1 fid none none store
      s).store.map (fun r =>
        if r.id = (⟨fid, cardId, 1, 0, some now1⟩ : FlashcardProgress).id then
          { r with
            correct_count :=
              (⟨fid, cardId, 1, 0, some now1⟩ : FlashcardProgress).correct_count + 1
            incorrect_count :=
              (⟨fid, cardId, 1, 0, some now1⟩ : FlashcardProgress).incorrect_count
            last_reviewed_at := some now2 }
        else r) = store ++ [⟨fid, u.id, cardId, deckId, 2, 0, some now2⟩] := by
    rw [h1]
    show (store ++ [(⟨fid, u.id, cardId, deckId, 1, 0, some now1⟩ : ProgressRow)]).map _ =
      store ++ [⟨fid, u.id, cardId, deckId, 2, 0, some now2⟩]
    rw [List.map_append]
    congr 1
    · exact map_eq_self_of_eq _ _ fun r hr => if_neg fun h => hfresh r hr h
    · simp
  refine ⟨?_, ?_, ?_, ?_, hlk1, ?_, ?_⟩
  · intro correct now fid3
    rw [recordProgress_insert_eq u cardId deckId correct now fid3 store s hmiss]
    exact ⟨rfl, rfl⟩
  · intro f st ex now fid3 hex
    refine ⟨?_, ?_, ?_⟩ <;> simp [recordProgress, hex]
  · intro f st ex now fid3 hex
    refine ⟨?_, ?_, ?_⟩ <;> simp [recordProgress, hex]
  · rw [h1]
  · rw [h2]
  · rw [h2]
    show (progressMapOf u.id deckId _).lookup cardId = _
    rw [hmap]
    exact progressMapOf_append_lookup u cardId deckId store hstore fid 2 0 (some now2)

/-- Claim C7 witness: two successive correct answers recorded for a
fresh card, starting from an empty mirror and store, yield the progress
record with counts (2, 0) and the latest review time; and an incorrect
answer recorded against an existing mirrored record with counts (3, 4)
leaves the store row with counts (3, 5) and the new review time. -/
theorem recordProgress_upsert_witness :
    (([] : List (String × FlashcardProgress)).lookup "c1" = none) ∧
    (recordProgress (some ⟨"u1"⟩) "c1" "d1" true "t2" "p2" none none
      (recordProgress (some ⟨"u1"⟩) "c1" "d1" true "t1" "p1" none none []
        { decks := [], cards := [], progress := [], loading := false,
          error := none }).store
      (recordProgress (some ⟨"u1"⟩) "c1" "d1" true "t1" "p1" none none []
        { decks := [], cards := [], progress := [], loading := false,
          error := none }).state).state.progress.lookup "c1" =
      some ⟨"p1", "c1", 2, 0, some "t2"⟩ ∧
    (([("c1", ⟨"p1", "c1", 3, 4, some "t0"⟩)] :
        List (String × FlashcardProgress)).lookup "c1" =
      some ⟨"p1", "c1", 3, 4, some "t0"⟩) ∧
    (recordProgress (some ⟨"u1"⟩) "c1" "d1" false "t3" "p9" none none
      [⟨"p1", "u1", "c1", "d1", 3, 4, some "t0"⟩]
      { decks := [], cards := [], progress := [("c1", ⟨"p1", "c1", 3, 4, some "t0"⟩)],
        loading := false, error := none }).store =
      [⟨"p1", "u1", "c1", "d1", 3, 5, some "t3"⟩] := by
  have h := recordProgress_upsert ⟨"u1"⟩ "c1" "d1"
    { decks := [], cards := [], progress := [], loading := false, error := none } []
    "t1" "t2" "p1" "p2" rfl (by simp) (by simp)
  have hstorefalse := (h.2.2.1
    { decks := [], cards := [], progress := [("c1", ⟨"p1", "c1", 3, 4, some "t0"⟩)],
      loading := false, error := none }
    [⟨"p1", "u1", "c1", "d1", 3, 4, some "t0"⟩]
    ⟨"p1", "c1", 3, 4, some "t0"⟩ "t3" "p9" (by decide)).2.1
  refine ⟨rfl, h.2.2.2.2.2.2, by decide, ?_⟩
  rw [hstorefalse]
  decide
